import Mathlib

/-!
Shallow embedding of the task-state store of the to-do front-end
(`useTodos` hook, `todosApi` client, `AuthProvider` gate).

The TypeScript store keeps `todos`, `loading`, `error` and `initialLoading`
in React state; each operation awaits one backend call and then reconciles
the response into the list.  Here the backend is an explicit oracle
(`Backend`): each operation takes the oracle and the current state and
returns the final state together with the trace of API calls it issued.
Transient in-flight states (the `setLoading(true)` before the `await`) are
exposed as named `...Pending` definitions.
-/

namespace TodoFront

/-- Drops the leading whitespace characters of a character list. -/
def dropLeadingWs : List Char → List Char
  | [] => []
  | c :: cs => if c.isWhitespace then dropLeadingWs cs else c :: cs

/-- JavaScript's `String.prototype.trim`: strips whitespace from both ends.
Written by structural recursion so that the kernel can evaluate it on
concrete strings. -/
def strTrim (s : String) : String :=
  String.mk (List.reverse (dropLeadingWs (List.reverse (dropLeadingWs s.data))))

/-- The `TodoStatus` string union of `todo.types.ts`. -/
inductive TodoStatus
  | PENDING
  | IN_PROGRESS
  | COMPLETED
  | CANCELLED
  deriving DecidableEq

/-- The `Todo` record of `todo.types.ts` (timestamps optional, backend-assigned). -/
structure Todo where
  id : Nat
  title : String
  description : String
  status : TodoStatus
  createdAt : Option String := none
  updatedAt : Option String := none
  deriving DecidableEq

/-- The `CreateTodoDto` of `todo.types.ts`. -/
structure CreateTodoDto where
  title : String
  description : String
  deriving DecidableEq

/-- The `UpdateTodoDto` of `todo.types.ts`. -/
structure UpdateTodoDto where
  title : String
  description : String
  status : TodoStatus
  deriving DecidableEq

/-- The `FilterType` union of `todo.types.ts`. -/
inductive FilterType
  | all
  | active
  | completed
  | cancelled
  deriving DecidableEq

/-- One HTTP request issued through `todosApi`. -/
inductive ApiCall
  | fetchAll
  | search (q : String)
  | create (dto : CreateTodoDto)
  | update (id : Nat) (dto : UpdateTodoDto)
  | delete (id : Nat)
  deriving DecidableEq

/-- The backend oracle: the outcome each `todosApi` call would produce.
`Except.error msg` stands for a rejected promise carrying `msg`
(the `Error` message thrown on a non-2xx response). -/
structure Backend where
  fetchAllRes : Except String (List Todo)
  searchRes : String → Except String (List Todo)
  createRes : CreateTodoDto → Except String Todo
  updateRes : Nat → UpdateTodoDto → Except String Todo
  deleteRes : Nat → Except String Unit

/-- The React state held by `useTodos`. -/
structure StoreState where
  todos : List Todo
  loading : Bool
  error : String
  initialLoading : Bool
  deriving DecidableEq

/-- `todosApi.deleteMultipleTodos`: fires `deleteTodo` for every id and awaits
them all (`Promise.all`); succeeds iff every deletion succeeds, otherwise
rejects with a failing deletion's error (determinized here to the first in
list order). -/
def deleteMultipleTodos (b : Backend) : List Nat → Except String Unit
  | [] => Except.ok ()
  | id :: rest =>
    match b.deleteRes id with
    | Except.error msg => Except.error msg
    | Except.ok _ => deleteMultipleTodos b rest

/-- The in-flight state of `fetchTodos`, right after `setInitialLoading(true)`. -/
def fetchTodosPending (s : StoreState) : StoreState :=
  { s with initialLoading := true }

/-- `fetchTodos` of `useTodos`: sets `initialLoading`, awaits `fetchAllTodos`,
stores the data, or on failure stores the error message and empties the list;
`finally` clears `initialLoading`. -/
def fetchTodos (b : Backend) (s : StoreState) : StoreState × List ApiCall :=
  let s1 := fetchTodosPending s
  match b.fetchAllRes with
  | Except.ok data => ({ s1 with todos := data, initialLoading := false }, [ApiCall.fetchAll])
  | Except.error msg =>
      ({ s1 with error := msg, todos := [], initialLoading := false }, [ApiCall.fetchAll])

/-- The in-flight state of `searchTodos`, right after `setLoading(true)`. -/
def searchTodosPending (s : StoreState) : StoreState :=
  { s with loading := true }

/-- `searchTodos` of `useTodos`: a query empty after trimming delegates to
`fetchTodos`; otherwise sets `loading`, awaits the search call (with the
untrimmed query), stores the results or on failure the error message, and
`finally` clears `loading`. -/
def searchTodos (b : Backend) (query : String) (s : StoreState) : StoreState × List ApiCall :=
  if strTrim query = "" then
    fetchTodos b s
  else
    let s1 := searchTodosPending s
    match b.searchRes query with
    | Except.ok data => ({ s1 with todos := data, loading := false }, [ApiCall.search query])
    | Except.error msg => ({ s1 with error := msg, loading := false }, [ApiCall.search query])

/-- `addTodo` of `useTodos`: validates that title and description are
non-empty after trimming (setting an error and returning `false` with no
network call otherwise); then awaits `createTodo` with the trimmed fields,
appends the created task and returns `true`, or on failure stores the error
and returns `false`; `finally` clears `loading`. -/
def addTodo (b : Backend) (todoData : CreateTodoDto) (s : StoreState) :
    StoreState × List ApiCall × Bool :=
  if strTrim todoData.title = "" ∨ strTrim todoData.description = "" then
    ({ s with error := "Título y descripción son requeridos" }, [], false)
  else
    let s1 := { s with loading := true }
    let dto : CreateTodoDto :=
      { title := strTrim todoData.title, description := strTrim todoData.description }
    match b.createRes dto with
    | Except.ok newTodo =>
        ({ s1 with todos := s.todos ++ [newTodo], loading := false }, [ApiCall.create dto], true)
    | Except.error msg =>
        ({ s1 with error := msg, loading := false }, [ApiCall.create dto], false)

/-- `toggleTodo` of `useTodos`: looks the task up locally, no-ops when absent;
otherwise flips COMPLETED to PENDING and anything else to COMPLETED, awaits
`updateTodo` with the task's current title and description and the new status,
and replaces the matching entries with the server's response; on failure only
the error message is stored. -/
def toggleTodo (b : Backend) (id : Nat) (s : StoreState) : StoreState × List ApiCall :=
  match s.todos.find? (fun t => t.id == id) with
  | none => (s, [])
  | some todo =>
    let newStatus : TodoStatus :=
      if todo.status = TodoStatus.COMPLETED then TodoStatus.PENDING else TodoStatus.COMPLETED
    let dto : UpdateTodoDto :=
      { title := todo.title, description := todo.description, status := newStatus }
    match b.updateRes id dto with
    | Except.ok updatedTodo =>
        ({ s with todos := s.todos.map (fun t => if t.id == id then updatedTodo else t) },
         [ApiCall.update id dto])
    | Except.error msg => ({ s with error := msg }, [ApiCall.update id dto])

/-- `deleteAllCompleted` of `useTodos`: computes the COMPLETED subset, no-ops
when it is empty, asks the user for confirmation (the `window.confirm` result
is the `confirm` argument), awaits `deleteMultipleTodos` on the completed
ids, and only on success filters the COMPLETED entries out of the local list;
on failure only the error message is stored; `finally` clears `loading`.
The trace records the delete request fired for each id. -/
def deleteAllCompleted (b : Backend) (confirm : Bool) (s : StoreState) :
    StoreState × List ApiCall :=
  let completedTodos := s.todos.filter (fun t => t.status == TodoStatus.COMPLETED)
  if completedTodos.length = 0 then (s, [])
  else if !confirm then (s, [])
  else
    let s1 := { s with loading := true }
    let completedIds := completedTodos.map (fun t => t.id)
    match deleteMultipleTodos b completedIds with
    | Except.ok _ =>
        ({ s1 with todos := s.todos.filter (fun t => !(t.status == TodoStatus.COMPLETED)),
                   loading := false },
         completedIds.map ApiCall.delete)
    | Except.error msg =>
        ({ s1 with error := msg, loading := false }, completedIds.map ApiCall.delete)

/-- `getFilteredTodos` of `useTodos`: pure filtering of the current list
(the TypeScript `switch` sends `all` to its `default` branch). -/
def getFilteredTodos (s : StoreState) (filter : FilterType) : List Todo :=
  match filter with
  | FilterType.active =>
      s.todos.filter (fun t => t.status == TodoStatus.PENDING || t.status == TodoStatus.IN_PROGRESS)
  | FilterType.completed => s.todos.filter (fun t => t.status == TodoStatus.COMPLETED)
  | FilterType.cancelled => s.todos.filter (fun t => t.status == TodoStatus.CANCELLED)
  | FilterType.all => s.todos

/-- What `AuthProvider` returns from its render function. -/
inductive AuthRender
  | initializingPlaceholder
  | unauthenticatedPlaceholder
  | providerWithChildren
  deriving DecidableEq

/-- The render gate of `AuthProvider.tsx`: a blocking placeholder until the
session is initialized, a blocking login placeholder while unauthenticated,
and the context provider wrapping the children only once both flags hold. -/
def authProviderRender (initialized authenticated : Bool) : AuthRender :=
  if !initialized then AuthRender.initializingPlaceholder
  else if !authenticated then AuthRender.unauthenticatedPlaceholder
  else AuthRender.providerWithChildren

/-! Concrete oracles and states used by witnesses and counterexamples. -/

/-- A backend that answers every call successfully, echoing submitted records
(update responses keep the requested id and the submitted fields). -/
def echoBackend : Backend where
  fetchAllRes := Except.ok []
  searchRes := fun _ => Except.ok []
  createRes := fun dto =>
    Except.ok { id := 7, title := dto.title, description := dto.description,
                status := TodoStatus.PENDING }
  updateRes := fun id dto =>
    Except.ok { id := id, title := dto.title, description := dto.description,
                status := dto.status }
  deleteRes := fun _ => Except.ok ()

/-- A backend that rejects every call. -/
def failBackend : Backend where
  fetchAllRes := Except.error "Error 500: Internal Server Error"
  searchRes := fun _ => Except.error "Error 500: Internal Server Error"
  createRes := fun _ => Except.error "Error 500: Internal Server Error"
  updateRes := fun _ _ => Except.error "Error 500: Internal Server Error"
  deleteRes := fun _ => Except.error "Error 500: Internal Server Error"

/-- A quiescent store holding one COMPLETED task. -/
def oneCompletedState : StoreState where
  todos := [{ id := 1, title := "t", description := "d", status := TodoStatus.COMPLETED }]
  loading := false
  error := ""
  initialLoading := false

/-- A quiescent store holding one IN_PROGRESS task. -/
def oneInProgressState : StoreState where
  todos := [{ id := 2, title := "t", description := "d", status := TodoStatus.IN_PROGRESS }]
  loading := false
  error := ""
  initialLoading := false

/-- A quiescent store holding one PENDING task. -/
def onePendingState : StoreState where
  todos := [{ id := 3, title := "p", description := "q", status := TodoStatus.PENDING }]
  loading := false
  error := ""
  initialLoading := false

/-- C9: the authentication gate renders the wrapped application content
exactly in the initialized-and-authenticated state; in every other state it
renders one of the two blocking placeholders, never the children. -/
theorem authProviderRender_gate :
    ∀ i a : Bool,
      (authProviderRender i a = AuthRender.providerWithChildren ↔ i = true ∧ a = true) ∧
      (¬(i = true ∧ a = true) →
        authProviderRender i a = AuthRender.initializingPlaceholder ∨
        authProviderRender i a = AuthRender.unauthenticatedPlaceholder) := by
  decide

/-- C4: when the title or the description is empty after trimming, `addTodo`
issues no network call, leaves the task list unchanged (only the error message
is set), and returns `false`. -/
theorem addTodo_validation (b : Backend) (d : CreateTodoDto) (s : StoreState)
    (h : strTrim d.title = "" ∨ strTrim d.description = "") :
    addTodo b d s =
      ({ s with error := "Título y descripción son requeridos" }, [], false) := by
  unfold addTodo
  rw [if_pos h]

/-- Witness for C4 at a whitespace-only title. -/
theorem addTodo_validation_witness :
    addTodo echoBackend { title := "   ", description := "d" } onePendingState =
      ({ onePendingState with error := "Título y descripción son requeridos" }, [], false) :=
  addTodo_validation echoBackend { title := "   ", description := "d" } onePendingState
    (Or.inl (by decide))

/-- C8: `fetchTodos` sets `initialLoading` while in flight, issues exactly the
fetch-all call, replaces the list with the fetched data on success, and on
failure empties the list and stores the error message; in both outcomes
`initialLoading` is cleared at the end. -/
theorem fetchTodos_spec (b : Backend) (s : StoreState) :
    (fetchTodosPending s).initialLoading = true ∧
    (fetchTodos b s).2 = [ApiCall.fetchAll] ∧
    (∀ data, b.fetchAllRes = Except.ok data →
      (fetchTodos b s).1.todos = data ∧ (fetchTodos b s).1.initialLoading = false) ∧
    (∀ msg, b.fetchAllRes = Except.error msg →
      (fetchTodos b s).1.todos = [] ∧ (fetchTodos b s).1.error = msg ∧
      (fetchTodos b s).1.initialLoading = false) := by
  refine ⟨rfl, ?_, ?_, ?_⟩ <;> unfold fetchTodos
  · cases b.fetchAllRes <;> rfl
  · intro data hd
    rw [hd]
    exact ⟨rfl, rfl⟩
  · intro msg hm
    rw [hm]
    exact ⟨rfl, rfl, rfl⟩

/-- C7: a query empty after trimming makes `searchTodos` delegate to
`fetchTodos` (so the list becomes the fetch-all result, not the prior filtered
one); a non-empty trimmed query sets `loading` while in flight, issues the
search call, replaces the list with the returned results, and clears
`loading` at the end. -/
theorem searchTodos_spec (b : Backend) (q : String) (s : StoreState) :
    (strTrim q = "" →
      searchTodos b q s = fetchTodos b s ∧
      (∀ data, b.fetchAllRes = Except.ok data → (searchTodos b q s).1.todos = data)) ∧
    (strTrim q ≠ "" →
      (searchTodosPending s).loading = true ∧
      (searchTodos b q s).2 = [ApiCall.search q] ∧
      (searchTodos b q s).1.loading = false ∧
      (∀ data, b.searchRes q = Except.ok data → (searchTodos b q s).1.todos = data)) := by
  constructor
  · intro hq
    refine ⟨?_, ?_⟩ <;> unfold searchTodos <;> rw [if_pos hq]
    intro data hd
    unfold fetchTodos
    rw [hd]
  · intro hq
    refine ⟨rfl, ?_, ?_, ?_⟩ <;> unfold searchTodos <;> rw [if_neg hq]
    · cases b.searchRes q <;> rfl
    · cases b.searchRes q <;> rfl
    · intro data hd
      rw [hd]

/-- C10: when the search call fails on a non-empty trimmed query, the task
list is left exactly as it was (only the error message is set and `loading`
cleared) — unlike `fetchTodos`, which empties the list on failure. -/
theorem searchTodos_failure_frame (b : Backend) (q : String) (s : StoreState) (msg : String)
    (hq : strTrim q ≠ "") (he : b.searchRes q = Except.error msg) :
    (searchTodos b q s).1.todos = s.todos ∧
    (searchTodos b q s).1.error = msg ∧
    (searchTodos b q s).1.loading = false ∧
    (∀ b2 : Backend, ∀ s2 : StoreState, ∀ m2,
      b2.fetchAllRes = Except.error m2 → (fetchTodos b2 s2).1.todos = []) := by
  refine ⟨?_, ?_, ?_, ?_⟩
  · unfold searchTodos
    rw [if_neg hq, he]
    rfl
  · unfold searchTodos
    rw [if_neg hq, he]
  · unfold searchTodos
    rw [if_neg hq, he]
  · intro b2 s2 m2 hm
    unfold fetchTodos
    rw [hm]

/-- Witness for C10: a failing search on a non-empty query keeps the list. -/
theorem searchTodos_failure_frame_witness :
    (searchTodos failBackend "milk" onePendingState).1.todos = onePendingState.todos ∧
    (searchTodos failBackend "milk" onePendingState).1.error =
      "Error 500: Internal Server Error" ∧
    (searchTodos failBackend "milk" onePendingState).1.loading = false ∧
    (∀ b2 : Backend, ∀ s2 : StoreState, ∀ m2,
      b2.fetchAllRes = Except.error m2 → (fetchTodos b2 s2).1.todos = []) :=
  searchTodos_failure_frame failBackend "milk" onePendingState
    "Error 500: Internal Server Error" (by decide) rfl

/-- C6: `getFilteredTodos` returns exactly the PENDING-or-IN_PROGRESS tasks
for `active`, exactly the COMPLETED ones for `completed`, exactly the
CANCELLED ones for `cancelled`, and the whole list for `all`; the three
non-`all` results are pairwise disjoint and together cover the list, and
filtering is pure — it computes a new list from the state and never modifies
the stored one. -/
theorem getFilteredTodos_spec (s : StoreState) :
    getFilteredTodos s FilterType.all = s.todos ∧
    (∀ t, t ∈ getFilteredTodos s FilterType.active ↔
      t ∈ s.todos ∧ (t.status = TodoStatus.PENDING ∨ t.status = TodoStatus.IN_PROGRESS)) ∧
    (∀ t, t ∈ getFilteredTodos s FilterType.completed ↔
      t ∈ s.todos ∧ t.status = TodoStatus.COMPLETED) ∧
    (∀ t, t ∈ getFilteredTodos s FilterType.cancelled ↔
      t ∈ s.todos ∧ t.status = TodoStatus.CANCELLED) ∧
    (∀ t, ¬(t ∈ getFilteredTodos s FilterType.active ∧
            t ∈ getFilteredTodos s FilterType.completed)) ∧
    (∀ t, ¬(t ∈ getFilteredTodos s FilterType.active ∧
            t ∈ getFilteredTodos s FilterType.cancelled)) ∧
    (∀ t, ¬(t ∈ getFilteredTodos s FilterType.completed ∧
            t ∈ getFilteredTodos s FilterType.cancelled)) ∧
    (∀ t, t ∈ s.todos →
      t ∈ getFilteredTodos s FilterType.active ∨
      t ∈ getFilteredTodos s FilterType.completed ∨
      t ∈ getFilteredTodos s FilterType.cancelled) := by
  refine ⟨rfl, ?_, ?_, ?_, ?_, ?_, ?_, ?_⟩ <;>
    intro t <;> simp [getFilteredTodos, List.mem_filter]
  · rintro - (h | h) - h2 <;> rw [h] at h2 <;> exact TodoStatus.noConfusion h2
  · rintro - (h | h) - h2 <;> rw [h] at h2 <;> exact TodoStatus.noConfusion h2
  · rintro - h - h2
    rw [h] at h2
    exact TodoStatus.noConfusion h2
  · intro ht
    cases h : t.status <;> simp [h, ht]

/-- C5: for a title/description pair non-empty after trimming, `addTodo`
issues exactly one create call carrying the trimmed values; when the backend
answers with a created task whose id is not already in the list, the task is
appended, `true` is returned, and that id occurs exactly once in the
resulting list. -/
theorem addTodo_success (b : Backend) (d : CreateTodoDto) (s : StoreState) (newTodo : Todo)
    (ht : strTrim d.title ≠ "") (hd : strTrim d.description ≠ "")
    (hc : b.createRes { title := strTrim d.title, description := strTrim d.description } =
      Except.ok newTodo)
    (hfresh : ∀ t ∈ s.todos, t.id ≠ newTodo.id) :
    (addTodo b d s).2.1 =
      [ApiCall.create { title := strTrim d.title, description := strTrim d.description }] ∧
    (addTodo b d s).1.todos = s.todos ++ [newTodo] ∧
    (addTodo b d s).2.2 = true ∧
    (addTodo b d s).1.todos.countP (fun t => t.id == newTodo.id) = 1 := by
  have hcond : ¬(strTrim d.title = "" ∨ strTrim d.description = "") := by
    rintro (h | h)
    · exact ht h
    · exact hd h
  have h1 : addTodo b d s =
      ({ s with todos := s.todos ++ [newTodo], loading := false },
       [ApiCall.create { title := strTrim d.title, description := strTrim d.description }],
       true) := by
    unfold addTodo
    rw [if_neg hcond]
    simp only [hc]
  rw [h1]
  refine ⟨rfl, rfl, rfl, ?_⟩
  rw [List.countP_append]
  have h0 : s.todos.countP (fun t => t.id == newTodo.id) = 0 := by
    rw [List.countP_eq_zero]
    intro t htl
    simpa using hfresh t htl
  simp [h0, List.countP_cons]

/-- Witness for C5: adding a task to the one-PENDING-task store via the echo
backend appends the created task with the fresh id 7. -/
theorem addTodo_success_witness :
    (addTodo echoBackend { title := " Buy milk ", description := "2% milk" }
        onePendingState).2.1 =
      [ApiCall.create { title := "Buy milk", description := "2% milk" }] ∧
    (addTodo echoBackend { title := " Buy milk ", description := "2% milk" }
        onePendingState).1.todos =
      onePendingState.todos ++
        [{ id := 7, title := "Buy milk", description := "2% milk",
           status := TodoStatus.PENDING }] ∧
    (addTodo echoBackend { title := " Buy milk ", description := "2% milk" }
        onePendingState).2.2 = true ∧
    (addTodo echoBackend { title := " Buy milk ", description := "2% milk" }
        onePendingState).1.todos.countP
      (fun t => t.id == (7 : Nat)) = 1 :=
  addTodo_success echoBackend { title := " Buy milk ", description := "2% milk" }
    onePendingState
    { id := 7, title := "Buy milk", description := "2% milk", status := TodoStatus.PENDING }
    (by decide) (by decide) rfl (by decide)

/-- The update payload `toggleTodo` submits for a found task: the task's
current title and description with the flipped status. -/
def toggleDto (todo : Todo) : UpdateTodoDto :=
  { title := todo.title, description := todo.description,
    status := if todo.status = TodoStatus.COMPLETED then TodoStatus.PENDING
              else TodoStatus.COMPLETED }

/-- Replacing every element matched by `p` with a fixed element `u` that
itself matches `p` turns `find?` into `find?` on the original list with `u`
substituted for the found element. -/
theorem find?_map_replace (p : Todo → Bool) (u : Todo) (hu : p u = true) (l : List Todo) :
    (l.map (fun t => if p t then u else t)).find? p = (l.find? p).map (fun _ => u) := by
  induction l with
  | nil => rfl
  | cons a l ih =>
    by_cases h : p a
    · simp [List.find?_cons_of_pos, h, hu]
    · simp [List.find?_cons_of_neg, h, ih]

/-- Unfolding equation of `toggleTodo` when the task is found. -/
theorem toggleTodo_found_eq (b : Backend) (id : Nat) (s : StoreState) (todo : Todo)
    (hfind : s.todos.find? (fun t => t.id == id) = some todo) :
    toggleTodo b id s =
      (match b.updateRes id (toggleDto todo) with
       | Except.ok u =>
           ({ s with todos := s.todos.map (fun t => if t.id == id then u else t) },
            [ApiCall.update id (toggleDto todo)])
       | Except.error msg => ({ s with error := msg }, [ApiCall.update id (toggleDto todo)])) := by
  unfold toggleTodo
  rw [hfind]
  rfl

/-- C2: `toggleTodo` is a no-op (no call, state unchanged) when no task has
the requested id; otherwise the payload sent to the update call keeps the
task's current title and description, its status is PENDING when the current
status is COMPLETED and COMPLETED for every other current status, and — when
the server answers successfully, echoing the submitted status — every entry
with that id in the resulting list carries that new status. -/
theorem toggleTodo_spec (b : Backend) (id : Nat) (s : StoreState) :
    (s.todos.find? (fun t => t.id == id) = none → toggleTodo b id s = (s, [])) ∧
    (∀ todo, s.todos.find? (fun t => t.id == id) = some todo →
      (toggleDto todo).title = todo.title ∧
      (toggleDto todo).description = todo.description ∧
      (toggleDto todo).status =
        (if todo.status = TodoStatus.COMPLETED then TodoStatus.PENDING
         else TodoStatus.COMPLETED) ∧
      (toggleTodo b id s).2 = [ApiCall.update id (toggleDto todo)] ∧
      (∀ u, b.updateRes id (toggleDto todo) = Except.ok u →
        u.status = (toggleDto todo).status →
        ∀ t ∈ (toggleTodo b id s).1.todos, t.id = id →
          t.status = (toggleDto todo).status)) := by
  constructor
  · intro h
    unfold toggleTodo
    rw [h]
  · intro todo hfind
    refine ⟨rfl, rfl, rfl, ?_, ?_⟩
    · rw [toggleTodo_found_eq b id s todo hfind]
      cases b.updateRes id (toggleDto todo) <;> rfl
    · intro u hres hstat t htmem htid
      have htodos : (toggleTodo b id s).1.todos =
          s.todos.map (fun t => if t.id == id then u else t) := by
        rw [toggleTodo_found_eq b id s todo hfind, hres]
      rw [htodos] at htmem
      obtain ⟨a, ha, hat⟩ := List.mem_map.1 htmem
      by_cases hid : (a.id == id) = true
      · rw [if_pos hid] at hat
        rw [← hat]
        exact hstat
      · rw [if_neg hid] at hat
        rw [← hat] at htid
        exact absurd htid (by simpa using hid)

/-- C1 counterexample: with a single COMPLETED task and a backend whose
delete call fails, `deleteAllCompleted` (with the confirmation accepted)
does issue the batch delete but leaves the local list unchanged — the
COMPLETED task is still present, contradicting the claim that the list would
contain no COMPLETED task after a failed `deleteMany`. -/
theorem deleteAllCompleted_failure_counterexample :
    (deleteAllCompleted failBackend true oneCompletedState).2 = [ApiCall.delete 1] ∧
    (deleteAllCompleted failBackend true oneCompletedState).1.todos = oneCompletedState.todos ∧
    oneCompletedState.todos.countP (fun t => t.status == TodoStatus.COMPLETED) = 1 := by
  decide

/-- Unfolding equation of `deleteAllCompleted` when some task is COMPLETED
and the user confirms. -/
theorem deleteAllCompleted_eq (b : Backend) (s : StoreState)
    (hne : s.todos.filter (fun t => t.status == TodoStatus.COMPLETED) ≠ []) :
    deleteAllCompleted b true s =
      ((match deleteMultipleTodos b
            ((s.todos.filter (fun t => t.status == TodoStatus.COMPLETED)).map
              (fun t => t.id)) with
        | Except.ok _ =>
            { todos := s.todos.filter (fun t => !(t.status == TodoStatus.COMPLETED)),
              loading := false, error := s.error, initialLoading := s.initialLoading }
        | Except.error msg =>
            { todos := s.todos, loading := false, error := msg,
              initialLoading := s.initialLoading } : StoreState),
       ((s.todos.filter (fun t => t.status == TodoStatus.COMPLETED)).map
         (fun t => t.id)).map ApiCall.delete) := by
  have hlen : ¬(s.todos.filter (fun t => t.status == TodoStatus.COMPLETED)).length = 0 := by
    simpa [List.length_eq_zero] using hne
  unfold deleteAllCompleted
  rw [if_neg hlen]
  cases hdel : deleteMultipleTodos b
      ((s.todos.filter (fun t => t.status == TodoStatus.COMPLETED)).map (fun t => t.id)) <;>
    simp [hdel]

/-- C1 amended: `deleteAllCompleted` no-ops when no task is COMPLETED;
otherwise, upon a positive confirmation, it fires one delete call per
completed id, and drops the COMPLETED entries from the local list only when
the whole batch succeeds; when the batch fails the local list is unchanged
and only the error message is set; `loading` is cleared at the end either
way. -/
theorem deleteAllCompleted_spec (b : Backend) (confirm : Bool) (s : StoreState) :
    (s.todos.filter (fun t => t.status == TodoStatus.COMPLETED) = [] →
      deleteAllCompleted b confirm s = (s, [])) ∧
    (s.todos.filter (fun t => t.status == TodoStatus.COMPLETED) ≠ [] → confirm = true →
      (deleteAllCompleted b confirm s).2 =
        ((s.todos.filter (fun t => t.status == TodoStatus.COMPLETED)).map
          (fun t => t.id)).map ApiCall.delete ∧
      (deleteMultipleTodos b
          ((s.todos.filter (fun t => t.status == TodoStatus.COMPLETED)).map
            (fun t => t.id)) = Except.ok () →
        (deleteAllCompleted b confirm s).1.todos =
          s.todos.filter (fun t => !(t.status == TodoStatus.COMPLETED))) ∧
      (∀ msg, deleteMultipleTodos b
          ((s.todos.filter (fun t => t.status == TodoStatus.COMPLETED)).map
            (fun t => t.id)) = Except.error msg →
        (deleteAllCompleted b confirm s).1.todos = s.todos ∧
        (deleteAllCompleted b confirm s).1.error = msg) ∧
      (deleteAllCompleted b confirm s).1.loading = false) := by
  constructor
  · intro h
    unfold deleteAllCompleted
    simp [h]
  · intro hne hc
    subst hc
    rw [deleteAllCompleted_eq b s hne]
    refine ⟨rfl, ?_, ?_, ?_⟩
    · intro hok
      rw [hok]
    · intro msg hmsg
      rw [hmsg]
      exact ⟨rfl, rfl⟩
    · cases hdel : deleteMultipleTodos b
          ((s.todos.filter (fun t => t.status == TodoStatus.COMPLETED)).map
            (fun t => t.id)) <;> simp [hdel]

/-- C3 counterexample: a task whose status is IN_PROGRESS does not get its
status back after two sequential successful toggles with an echoing server —
it ends at PENDING (IN_PROGRESS → COMPLETED → PENDING). -/
theorem toggleTodo_twice_counterexample :
    oneInProgressState.todos.map (fun t => t.status) = [TodoStatus.IN_PROGRESS] ∧
    ((toggleTodo echoBackend 2 (toggleTodo echoBackend 2 oneInProgressState).1).1.todos.map
      (fun t => t.status)) = [TodoStatus.PENDING] := by
  decide

/-- C3 amended: two sequential successful `toggleTodo` calls — the second
issued after the first's echoed response is applied — restore the task's
original status when that status is COMPLETED or PENDING (on IN_PROGRESS or
CANCELLED tasks they end at PENDING instead). -/
theorem toggleTodo_twice_spec (b : Backend) (id : Nat) (s : StoreState) (todo : Todo)
    (hfind : s.todos.find? (fun t => t.id == id) = some todo)
    (hstat : todo.status = TodoStatus.COMPLETED ∨ todo.status = TodoStatus.PENDING)
    (hecho : ∀ i dto, ∃ u, b.updateRes i dto = Except.ok u ∧ u.id = i ∧ u.status = dto.status) :
    ∀ t ∈ (toggleTodo b id (toggleTodo b id s).1).1.todos, t.id = id →
      t.status = todo.status := by
  obtain ⟨u1, hu1, hid1, hst1⟩ := hecho id (toggleDto todo)
  have htodos1 : (toggleTodo b id s).1.todos =
      s.todos.map (fun t => if t.id == id then u1 else t) := by
    rw [toggleTodo_found_eq b id s todo hfind, hu1]
  have hp : (fun t : Todo => t.id == id) u1 = true := by simp [hid1]
  have hfind2 : (toggleTodo b id s).1.todos.find? (fun t => t.id == id) = some u1 := by
    rw [htodos1, find?_map_replace _ _ hp, hfind]
    rfl
  obtain ⟨u2, hu2, hid2, hst2⟩ := hecho id (toggleDto u1)
  have htodos2 : (toggleTodo b id (toggleTodo b id s).1).1.todos =
      (toggleTodo b id s).1.todos.map (fun t => if t.id == id then u2 else t) := by
    rw [toggleTodo_found_eq b id (toggleTodo b id s).1 u1 hfind2, hu2]
  have hu2stat : u2.status = todo.status := by
    rw [hst2]
    rcases hstat with h | h <;> simp [toggleDto, hst1, h]
  intro t htmem htid
  rw [htodos2] at htmem
  obtain ⟨a, ha, hat⟩ := List.mem_map.1 htmem
  by_cases hid : (a.id == id) = true
  · rw [if_pos hid] at hat
    rw [← hat]
    exact hu2stat
  · rw [if_neg hid] at hat
    rw [← hat] at htid
    exact absurd htid (by simpa using hid)

/-- Witness for C3 amended: the single PENDING task keeps status PENDING
after two toggles against the echoing backend. -/
theorem toggleTodo_twice_spec_witness :
    ((toggleTodo echoBackend 3 (toggleTodo echoBackend 3 onePendingState).1).1.todos.get
        ⟨0, by decide⟩).status = TodoStatus.PENDING :=
  toggleTodo_twice_spec echoBackend 3 onePendingState
    { id := 3, title := "p", description := "q", status := TodoStatus.PENDING }
    (by decide) (Or.inr rfl)
    (fun i dto =>
      ⟨{ id := i, title := dto.title, description := dto.description, status := dto.status },
       rfl, rfl, rfl⟩)
    _ (by decide) (by decide)

end TodoFront
